import Mathlib

/-!
Verification development for the sliver-mcp repository (Go).

The embedding models Go strings as `List Char`.  Go's `strings.ToLower` is
modelled by an ASCII case-folding table (all strings the program compares
against are ASCII).  Stateful RPC collaborators are modelled as explicit
function-valued oracles; `fmt.Errorf` failures become `Except.error` carrying
the formatted message, and the `fmt.Printf` warning emissions of the implant
handlers are modelled as an explicit list of recorded warnings.
-/

namespace SliverMCP

/-- ASCII uppercase/lowercase table used to model Go `strings.ToLower`
(every string the program matches on is ASCII). -/
def upperLower : List (Char × Char) :=
  [('A', 'a'), ('B', 'b'), ('C', 'c'), ('D', 'd'), ('E', 'e'), ('F', 'f'),
   ('G', 'g'), ('H', 'h'), ('I', 'i'), ('J', 'j'), ('K', 'k'), ('L', 'l'),
   ('M', 'm'), ('N', 'n'), ('O', 'o'), ('P', 'p'), ('Q', 'q'), ('R', 'r'),
   ('S', 's'), ('T', 't'), ('U', 'u'), ('V', 'v'), ('W', 'w'), ('X', 'x'),
   ('Y', 'y'), ('Z', 'z')]

/-- Lower-case one character per the ASCII table. -/
def lowerChar (c : Char) : Char :=
  match upperLower.find? (fun p => p.1 = c) with
  | some p => p.2
  | none => c

/-- Model of Go `strings.ToLower` on the ASCII fragment. -/
def lowerStr (s : List Char) : List Char := s.map lowerChar

/-- Model of Go `strings.HasPrefix pre s` (first argument is the prefix). -/
def hasPrefixL : List Char → List Char → Bool
  | [], _ => true
  | _ :: _, [] => false
  | p :: ps, c :: cs => p = c && hasPrefixL ps cs

/-- Model of Go `strings.TrimPrefix`: drop `pre` when present, else identity. -/
def trimPrefixL (pre s : List Char) : List Char :=
  if hasPrefixL pre s then s.drop pre.length else s

/-- Model of Go `strings.Contains s pat`: some suffix of `s` starts with `pat`. -/
def containsL : List Char → List Char → Bool
  | s, pat =>
    hasPrefixL pat s ||
      match s with
      | [] => false
      | _ :: cs => containsL cs pat

/-- Model of Go `strings.Split s ":"`-style splitting on a single separator
character; always returns at least one (possibly empty) segment. -/
def splitOnChar (sep : Char) : List Char → List (List Char)
  | [] => [[]]
  | c :: cs =>
    if c = sep then [] :: splitOnChar sep cs
    else
      match splitOnChar sep cs with
      | [] => [[c]]
      | t :: ts => (c :: t) :: ts

/-- Model of Go `strings.Count s "/"` (single-character pattern, so the
non-overlapping count is the character count). -/
def countSlash (s : List Char) : Nat := s.count '/'

/-- One scanning step of Go `strings.ReplaceAll`: `skip` is the number of
characters of an already-emitted match still to consume, so the recursion is
structural on the scanned list and models leftmost non-overlapping
replacement of the (never empty in this program) pattern `pat` by `rep`. -/
def replaceGo (pat rep : List Char) : Nat → List Char → List Char
  | _, [] => []
  | Nat.succ k, _ :: cs => replaceGo pat rep k cs
  | 0, c :: cs =>
    if hasPrefixL pat (c :: cs) then rep ++ replaceGo pat rep (pat.length - 1) cs
    else c :: replaceGo pat rep 0 cs

/-- Model of Go `strings.ReplaceAll s pat rep`. -/
def replaceAllL (pat rep s : List Char) : List Char := replaceGo pat rep 0 s

/-- ASCII whitespace set used to model Go `strings.TrimSpace` (the program
only ever produces ASCII whitespace here). -/
def isSpaceChar (c : Char) : Bool :=
  c = ' ' || c = '\t' || c = '\n' || c = '\r' || c = '\x0b' || c = '\x0c'

/-- Model of Go `strings.TrimSpace`. -/
def trimSpaceL (s : List Char) : List Char :=
  ((s.dropWhile isSpaceChar).reverse.dropWhile isSpaceChar).reverse

/-- Decimal rendering of the loop index interpolated by `%d`. -/
def natRender (n : Nat) : List Char := Nat.toDigits 10 n

/-- A loosely-typed JSON-like value from the `map[string]interface{}`
arguments of a tool request.  An `obj` carries only its `"url"` entry,
the single key the C2 resolution code reads from structured entries
(`none` models both an absent key and the failed string assertion). -/
inductive JVal where
  | str (s : List Char)
  | boolean (b : Bool)
  | num (n : Int)
  | list (xs : List JVal)
  | obj (url : Option JVal)

/-- Go type assertion `v.(string)`: succeeds exactly on string values
(`none` also models an absent key). -/
def asStr : Option JVal → Option (List Char)
  | some (JVal.str s) => some s
  | _ => none

/-- Go type assertion `v.([]interface{})`. -/
def asList : Option JVal → Option (List JVal)
  | some (JVal.list xs) => some xs
  | _ => none

/-- Go type assertion `v.(bool)`. -/
def asBool : Option JVal → Option Bool
  | some (JVal.boolean b) => some b
  | _ => none

/-- Go type assertion `v.(float64)` followed by the `int64(...)` conversion
(the numeric carrier is modelled as an integer). -/
def asNum : Option JVal → Option Int
  | some (JVal.num n) => some n
  | _ => none

/-- The `config` argument map of `HandleGenerateImplant` /
`HandleSaveImplantProfile`, restricted to the keys the handlers read.
`osUpper` is the `"OS"` key, `osLower` the `"os"` key. -/
structure ConfigMap where
  osUpper : Option JVal
  osLower : Option JVal
  arch : Option JVal
  format : Option JVal
  c2 : Option JVal
  mtlsc2 : Option JVal
  httpc2 : Option JVal
  httpsc2 : Option JVal
  isBeacon : Option JVal
  beaconInterval : Option JVal
  beaconJitter : Option JVal
  debug : Option JVal
  evasion : Option JVal
  obfuscateSymbols : Option JVal

/-- `clientpb.OutputFormat` (the values the handlers mention). -/
inductive OutputFormat where
  | EXECUTABLE
  | SHARED_LIB
  | SHELLCODE
  | SERVICE
deriving DecidableEq

/-- The `WARNING: ... format requested, but defaulting to executable`
printf emissions, modelled as recorded warnings. -/
inductive Warning where
  | sharedLib
  | shellcode
  | service
deriving DecidableEq

/-- `clientpb.ImplantC2`: a resolved C2 endpoint. -/
structure ImplantC2 where
  priority : Nat
  url : List Char
deriving DecidableEq

/-- `clientpb.ImplantConfig`, restricted to the fields the handlers set. -/
structure ImplantConfig where
  goos : List Char
  goarch : List Char
  format : OutputFormat
  c2 : List ImplantC2
  isBeacon : Bool
  beaconInterval : Int
  beaconJitter : Int
  debug : Bool
  evasion : Bool
  obfuscateSymbols : Bool
deriving DecidableEq

/-- The `Standardize OS name` switch of both handlers (its input has
already been lower-cased by the assignment). -/
def stdOS (l : List Char) : List Char :=
  if l = "mac".data ∨ l = "macos".data ∨ l = "osx".data then "darwin".data
  else if l = "win".data then "windows".data
  else if l = "lin".data then "linux".data
  else l

/-- The `Standardize architecture names` switch of both handlers. -/
def stdArch (l : List Char) : List Char :=
  if l = "x64".data ∨ l = "x86_64".data ∨ l = "amd64".data ∨
      l = "64".data ∨ l = "64bit".data then "amd64".data
  else if l = "x86".data ∨ l = "i386".data ∨ l = "386".data ∨
      l = "32".data ∨ l = "32bit".data then "386".data
  else if l = "arm64".data ∨ l = "aarch64".data then "arm64".data
  else l

/-- Full OS canonicalization as applied to a provided OS string:
lower-case, then the standardize switch. -/
def canonOS (s : List Char) : List Char := stdOS (lowerStr s)

/-- Full architecture canonicalization as applied to a provided arch string. -/
def canonArch (s : List Char) : List Char := stdArch (lowerStr s)

/-- The recognized OS aliases (the cases of the OS switch). -/
def osAliases : List (List Char) :=
  ["mac".data, "macos".data, "osx".data, "win".data, "lin".data]

/-- The recognized architecture aliases (the cases of the arch switch). -/
def archAliases : List (List Char) :=
  ["x64".data, "x86_64".data, "amd64".data, "64".data, "64bit".data,
   "x86".data, "i386".data, "386".data, "32".data, "32bit".data,
   "arm64".data, "aarch64".data]

/-- The `GOOS` computed by `HandleGenerateImplant` / `HandleSaveImplantProfile`:
the `"OS"` key wins over `"os"`, the value is lower-cased, standardized, and
defaulted to `windows` when empty. -/
def genGoos (cm : ConfigMap) : List Char :=
  let g0 :=
    match asStr cm.osUpper with
    | some s => lowerStr s
    | none =>
      match asStr cm.osLower with
      | some s => lowerStr s
      | none => []
  let g1 := stdOS g0
  if g1 = [] then "windows".data else g1

/-- The `GOARCH` computed by the handlers: lower-cased, standardized,
defaulted to `amd64` when absent or empty. -/
def genGoarch (cm : ConfigMap) : List Char :=
  let a0 :=
    match asStr cm.arch with
    | some s => stdArch (lowerStr s)
    | none => []
  if a0 = [] then "amd64".data else a0

/-- The `fmt.Sprintf("%s/%s", GOOS, GOARCH)` platform string. -/
def genPlatform (cm : ConfigMap) : List Char :=
  genGoos cm ++ "/".data ++ genGoarch cm

/-- The `supportedPlatforms` map of `HandleGenerateImplant`. -/
def supportedPlatforms : List (List Char) :=
  ["windows/amd64".data, "windows/386".data, "linux/amd64".data,
   "linux/386".data, "darwin/amd64".data, "darwin/arm64".data]

/-- The `unsupported platform` error message of `HandleGenerateImplant`. -/
def unsupportedPlatformMsg (platform : List Char) : List Char :=
  "unsupported platform: ".data ++ platform ++
    (" - supported platforms are: windows/amd64, windows/386, linux/amd64, " ++
     "linux/386, darwin/amd64, darwin/arm64").data

/-- The format names of the shared-library warning case. -/
def sharedLibNames : List (List Char) :=
  ["shared-lib".data, "sharedlib".data, "dll".data, "so".data, "dylib".data]

/-- The format switch of both handlers: the composed format is always
`EXECUTABLE` (the non-executable assignments are commented out in the
source); a warning is recorded for the disabled formats. -/
def formatWarnings (f : Option (List Char)) : List Warning :=
  match f with
  | none => []
  | some f0 =>
    let fl := lowerStr f0
    if fl ∈ sharedLibNames then [Warning.sharedLib]
    else if fl = "shellcode".data then [Warning.shellcode]
    else if fl = "service".data then [Warning.service]
    else []

/-- Abstraction of Go's `%+v` rendering of an `interface{}` value inside the
invalid-mtlsc2 message (no claim depends on this text). -/
def jvalRender : JVal → List Char
  | JVal.str s => s
  | JVal.boolean true => "true".data
  | JVal.boolean false => "false".data
  | JVal.num _ => "<number>".data
  | JVal.list _ => "<list>".data
  | JVal.obj _ => "<object>".data

/-- `%+v` of the whole `mtlsc2` slice, space-separated in brackets. -/
def jvalListRender (l : List JVal) : List Char :=
  "[".data ++ List.intercalate " ".data (l.map jvalRender) ++ "]".data

/-- The shared per-element loop of the `mtlsc2` / `httpc2` / `httpsc2`
branches: string entries are prefixed with the scheme when it is absent and
keep their 0-based input index as priority; non-string entries are skipped
(the mtls branch additionally prints a warning for them). -/
def schemeLoop (pre : List Char) : Nat → List JVal → List ImplantC2
  | _, [] => []
  | i, JVal.str s :: rest =>
    ⟨i, if hasPrefixL pre s then s else pre ++ s⟩ :: schemeLoop pre (i + 1) rest
  | i, _ :: rest => schemeLoop pre (i + 1) rest

/-- The loop of the structured-`c2` branch: one endpoint per object entry,
priority the 0-based index, URL the string `"url"` field (empty when the
field is missing or not a string); non-object entries are skipped. -/
def c2ListLoop : Nat → List JVal → List ImplantC2
  | _, [] => []
  | i, JVal.obj url :: rest =>
    ⟨i, match url with
        | some (JVal.str u) => u
        | _ => []⟩ :: c2ListLoop (i + 1) rest
  | i, _ :: rest => c2ListLoop (i + 1) rest

/-- Error message of the mtlsc2-entries-all-invalid branch. -/
def invalidMtlsc2Msg (l : List JVal) : List Char :=
  "invalid mtlsc2 configuration: ".data ++ jvalListRender l ++
    " - mtlsc2 must be an array of strings".data

/-- Error message when no C2 shape matched or zero endpoints resulted. -/
def noC2Msg : List Char :=
  ("no C2 configuration found - please specify at least one C2 server " ++
   "using mtlsc2, httpc2, httpsc2, or c2 fields").data

/-- Error message for an empty C2 URL. -/
def emptyC2Msg : List Char :=
  "empty C2 URL detected - please provide valid C2 URLs".data

/-- Error message for a malformed `mtls://` URL. -/
def invalidMtlsUrlMsg (i : Nat) (url : List Char) : List Char :=
  "invalid MTLS URL format at index ".data ++ natRender i ++ ": ".data ++
    url ++ " - format should be mtls://host:port or mtls://host".data

/-- Error message for an `http(s)://` URL with fewer than three slashes. -/
def invalidHttpUrlMsg (i : Nat) (url : List Char) : List Char :=
  "invalid HTTP(S) URL format at index ".data ++ natRender i ++ ": ".data ++
    url ++ " - format should include host, e.g., http://domain.com".data

/-- Error message for an unrecognized URL scheme. -/
def invalidProtocolMsg (i : Nat) (url : List Char) : List Char :=
  "invalid URL protocol at index ".data ++ natRender i ++ ": ".data ++
    url ++ " - supported protocols are mtls://, http://, and https://".data

/-- Shape 5: `configMap["c2"].(string)` with a non-empty value. -/
def resolveShape5 (c2 : Option JVal) : Except (List Char) (Bool × List ImplantC2) :=
  match asStr c2 with
  | some s => if s ≠ [] then Except.ok (true, [⟨0, s⟩]) else Except.ok (false, [])
  | none => Except.ok (false, [])

/-- Shape 4: a non-empty `httpsc2` string list. -/
def resolveShape4 (httpsc2 c2 : Option JVal) :
    Except (List Char) (Bool × List ImplantC2) :=
  match asList httpsc2 with
  | some l =>
    if 0 < l.length then Except.ok (true, schemeLoop "https://".data 0 l)
    else resolveShape5 c2
  | none => resolveShape5 c2

/-- Shape 3: a non-empty `httpc2` string list. -/
def resolveShape3 (httpc2 httpsc2 c2 : Option JVal) :
    Except (List Char) (Bool × List ImplantC2) :=
  match asList httpc2 with
  | some l =>
    if 0 < l.length then Except.ok (true, schemeLoop "http://".data 0 l)
    else resolveShape4 httpsc2 c2
  | none => resolveShape4 httpsc2 c2

/-- Shape 2: an `mtlsc2` list (taken even when empty); fails when a
non-empty list produced zero endpoints. -/
def resolveShape2 (mtlsc2 httpc2 httpsc2 c2 : Option JVal) :
    Except (List Char) (Bool × List ImplantC2) :=
  match asList mtlsc2 with
  | some l =>
    let c2s := schemeLoop "mtls://".data 0 l
    if c2s.length = 0 ∧ 0 < l.length then Except.error (invalidMtlsc2Msg l)
    else Except.ok (true, c2s)
  | none => resolveShape3 httpc2 httpsc2 c2

/-- Shape 1 and dispatch: a non-empty structured `c2` list wins; otherwise
the later shapes are probed in source order. -/
def resolveShape (c2 mtlsc2 httpc2 httpsc2 : Option JVal) :
    Except (List Char) (Bool × List ImplantC2) :=
  match asList c2 with
  | some l =>
    if 0 < l.length then Except.ok (true, c2ListLoop 0 l)
    else resolveShape2 mtlsc2 httpc2 httpsc2 c2
  | none => resolveShape2 mtlsc2 httpc2 httpsc2 c2

/-- The `Validate C2 URLs` loop of `HandleGenerateImplant`. -/
def validateC2Loop : Nat → List ImplantC2 → Except (List Char) Unit
  | _, [] => Except.ok ()
  | i, e :: rest =>
    if e.url = [] then Except.error emptyC2Msg
    else if hasPrefixL "mtls://".data e.url then
      let parts := splitOnChar ':' (trimPrefixL "mtls://".data e.url)
      if parts.length ≠ 2 ∧ (parts.length ≠ 1 ∨ parts.headD [] = []) then
        Except.error (invalidMtlsUrlMsg i e.url)
      else validateC2Loop (i + 1) rest
    else if hasPrefixL "http://".data e.url || hasPrefixL "https://".data e.url then
      if countSlash e.url < 3 then Except.error (invalidHttpUrlMsg i e.url)
      else validateC2Loop (i + 1) rest
    else Except.error (invalidProtocolMsg i e.url)

/-- The whole `Process C2 configuration` section of `HandleGenerateImplant`
(shape resolution, the no-configuration check, then URL validation). -/
def resolveC2 (c2 mtlsc2 httpc2 httpsc2 : Option JVal) :
    Except (List Char) (List ImplantC2) :=
  match resolveShape c2 mtlsc2 httpc2 httpsc2 with
  | Except.error e => Except.error e
  | Except.ok (found, c2s) =>
    if ¬found ∨ c2s.length = 0 then Except.error noC2Msg
    else
      match validateC2Loop 0 c2s with
      | Except.error e => Except.error e
      | Except.ok _ => Except.ok c2s

/-- The behavioral-flag section shared by both handlers (absent or mistyped
values keep the protobuf zero value). -/
def mkImplantConfig (cm : ConfigMap) (goos goarch : List Char)
    (c2s : List ImplantC2) : ImplantConfig :=
  ⟨goos, goarch, OutputFormat.EXECUTABLE, c2s,
    (asBool cm.isBeacon).getD false,
    (asNum cm.beaconInterval).getD 0,
    (asNum cm.beaconJitter).getD 0,
    (asBool cm.debug).getD false,
    (asBool cm.evasion).getD false,
    (asBool cm.obfuscateSymbols).getD false⟩

/-- The configuration-composition part of `HandleGenerateImplant` (everything
before the `client.Generate` RPC and the filesystem side effects): platform
normalization and validation, the format override with its warnings, and C2
resolution, in source order. -/
def composeGenerate (cm : ConfigMap) :
    Except (List Char) (ImplantConfig × List Warning) :=
  if genPlatform cm ∈ supportedPlatforms then
    match resolveC2 cm.c2 cm.mtlsc2 cm.httpc2 cm.httpsc2 with
    | Except.error e => Except.error e
    | Except.ok c2s =>
      Except.ok (mkImplantConfig cm (genGoos cm) (genGoarch cm) c2s,
        formatWarnings (asStr cm.format))
  else Except.error (unsupportedPlatformMsg (genPlatform cm))

/-- Error message of the missing-name check of `HandleSaveImplantProfile`. -/
def nameRequiredMsg : List Char := "name must be a non-empty string".data

/-- The configuration-composition part of `HandleSaveImplantProfile`
(everything before the `client.SaveImplantProfile` RPC): it normalizes and
defaults the platform, forces the executable format, and accepts only the
structured-`c2`-list and single-`c2`-string shapes — with no platform
validation, no URL validation and no missing-C2 failure. -/
def composeSaveProfile (name : Option (List Char)) (cm : ConfigMap) :
    Except (List Char) (ImplantConfig × List Warning) :=
  match name with
  | none => Except.error nameRequiredMsg
  | some n =>
    if n = [] then Except.error nameRequiredMsg
    else
      let c2s :=
        match asList cm.c2 with
        | some l => c2ListLoop 0 l
        | none =>
          match asStr cm.c2 with
          | some s => [⟨0, s⟩]
          | none => []
      Except.ok (mkImplantConfig cm (genGoos cm) (genGoarch cm) c2s,
        formatWarnings (asStr cm.format))

/-- The five error categories of the specification; the code realizes a
category as the branch taken and the remediation message produced. -/
inductive ErrorCategory where
  | missingCrossCompiler
  | buildProcessFailure
  | networkFailure
  | unsupportedPlatform
  | generic
deriving DecidableEq

/-- The error classification inside `SliverClient.Generate` (client.go),
applied to the raw error text of the downstream `Generate` RPC; the generic
branch appends the attempted platform and format for context. -/
def generateClassify (e platform formatStr : List Char) :
    ErrorCategory × List Char :=
  if containsL e "CC".data || containsL e "gcc".data || containsL e "mingw".data then
    (ErrorCategory.missingCrossCompiler,
      "failed to generate implant: cross-compiler error - ".data ++ e)
  else if containsL e "go build".data || containsL e "exit status".data then
    (ErrorCategory.buildProcessFailure,
      "failed to generate implant: build process error - ".data ++ e)
  else if containsL e "connect".data || containsL e "network".data ||
      containsL e "connection".data then
    (ErrorCategory.networkFailure,
      "failed to generate implant: network error - ".data ++ e)
  else
    (ErrorCategory.generic,
      "failed to generate implant: ".data ++ e ++ " (platform: ".data ++
        platform ++ ", format: ".data ++ formatStr ++ ")".data)

/-- The second-layer classification in `HandleGenerateImplant`, applied to
the message returned by `SliverClient.Generate`; its marker checks are all
guarded by an `exit status 1` test. -/
def handlerClassify (errorMsg platform : List Char) :
    ErrorCategory × List Char :=
  if containsL errorMsg "exit status 1".data then
    if containsL errorMsg "CC".data || containsL errorMsg "gcc".data then
      (ErrorCategory.missingCrossCompiler,
        ("cross-compiler error: required cross-compiler not found or failed. " ++
         "For Windows targets, ensure mingw-w64 is installed. For Linux " ++
         "targets, ensure gcc is installed").data)
    else if containsL errorMsg "unknown architecture".data ||
        containsL errorMsg "unknown OS".data then
      (ErrorCategory.unsupportedPlatform,
        "unsupported platform: ".data ++ platform ++
          " - please choose a supported OS/architecture combination".data)
    else if containsL errorMsg "connection".data ||
        containsL errorMsg "network".data then
      (ErrorCategory.networkFailure,
        ("network error while building implant: server may be unavailable " ++
         "or connection disrupted").data)
    else
      (ErrorCategory.buildProcessFailure,
        ("build failed: compilation error during implant generation - " ++
         "check server logs for details").data)
  else
    (ErrorCategory.generic,
      "failed to generate implant: ".data ++ errorMsg ++
        " - check server logs for more details".data)

/-- The classification a raw builder error undergoes end to end: first inside
`SliverClient.Generate`, then again in `HandleGenerateImplant`. -/
def fullClassify (e platform formatStr : List Char) :
    ErrorCategory × List Char :=
  handlerClassify (generateClassify e platform formatStr).2 platform

/-- `clientpb.Session`, restricted to the fields the execution engine reads. -/
structure Session where
  id : List Char
  os : List Char
deriving DecidableEq

/-- `sliverpb.ExecuteReq`, restricted to the fields the client sets. -/
structure ExecuteReq where
  sessionID : List Char
  path : List Char
  args : List (List Char)
  output : Bool
deriving DecidableEq

/-- `sliverpb.Execute`, restricted to the fields the handler reads
(`respErr = []` models both a nil `Response` and an empty `Err`). -/
structure ExecResp where
  respErr : List Char
  stdout : List Char
  stderr : List Char
deriving DecidableEq

/-- The `cmd.exe` primary request of the windows path of
`SliverClient.Execute`. -/
def cmdReq (sessionID command : List Char) : ExecuteReq :=
  ⟨sessionID, "cmd.exe".data,
    ["/D".data, "/u".data, "/V:OFF".data, "/C".data, command], true⟩

/-- The wrapped powershell command of the windows fallback. -/
def psCommand (command : List Char) : List Char :=
  "$OutputEncoding = [System.Text.Encoding]::UTF8; ".data ++ command ++
    "; exit $LASTEXITCODE".data

/-- The `powershell.exe` fallback request of the windows path. -/
def psReq (sessionID command : List Char) : ExecuteReq :=
  ⟨sessionID, "powershell.exe".data,
    ["-NoProfile".data, "-NonInteractive".data, "-OutputFormat".data,
     "Text".data, "-Command".data, psCommand command], true⟩

/-- The `/bin/bash -c` primary request of the posix path. -/
def bashReq (sessionID command : List Char) : ExecuteReq :=
  ⟨sessionID, "/bin/bash".data, ["-c".data, command], true⟩

/-- The `/bin/sh -c` fallback request of the posix path. -/
def shReq (sessionID command : List Char) : ExecuteReq :=
  ⟨sessionID, "/bin/sh".data, ["-c".data, command], true⟩

/-- `SliverClient.GetSession`: list the sessions through the (oracle-modelled)
RPC and search for the requested ID. -/
def getSession (sessionsResult : Except (List Char) (List Session))
    (sessionID : List Char) : Except (List Char) Session :=
  match sessionsResult with
  | Except.error e => Except.error ("failed to get sessions: ".data ++ e)
  | Except.ok ss =>
    match ss.find? (fun s => s.id = sessionID) with
    | some s => Except.ok s
    | none =>
      Except.error ("session with ID ".data ++ sessionID ++ " not found".data)

/-- `SliverClient.Execute`: resolve the session (terminal on failure), pick
the shell chain from the reported OS, attempt the primary request through the
RPC oracle `rpc`, fall back exactly once on failure, and fail with the
combined message when both attempts fail.  The second component is the list
of execution requests actually issued, in order. -/
def clientExecute (rpc : ExecuteReq → Except (List Char) ExecResp)
    (sessionsResult : Except (List Char) (List Session))
    (sessionID command : List Char) :
    Except (List Char) ExecResp × List ExecuteReq :=
  match getSession sessionsResult sessionID with
  | Except.error e =>
    (Except.error ("failed to get session info: ".data ++ e), [])
  | Except.ok s =>
    if lowerStr s.os = "windows".data then
      match rpc (cmdReq sessionID command) with
      | Except.ok r => (Except.ok r, [cmdReq sessionID command])
      | Except.error _ =>
        match rpc (psReq sessionID command) with
        | Except.ok r =>
          (Except.ok r, [cmdReq sessionID command, psReq sessionID command])
        | Except.error e2 =>
          (Except.error
            ("failed to execute command with both cmd.exe and powershell.exe: ".data
              ++ e2),
           [cmdReq sessionID command, psReq sessionID command])
    else
      match rpc (bashReq sessionID command) with
      | Except.ok r => (Except.ok r, [bashReq sessionID command])
      | Except.error _ =>
        match rpc (shReq sessionID command) with
        | Except.ok r =>
          (Except.ok r, [bashReq sessionID command, shReq sessionID command])
        | Except.error e2 =>
          (Except.error
            ("failed to execute command with both bash and sh: ".data ++ e2),
           [bashReq sessionID command, shReq sessionID command])

/-- The windows output normalization of `HandleExecute`: strip NUL bytes,
mark CRLF with `##CRLF##`, turn bare CR into LF, restore the marker to LF,
then trim surrounding whitespace. -/
def normalizeWindowsOutput (s : List Char) : List Char :=
  trimSpaceL
    (replaceAllL "##CRLF##".data ['\n']
      (replaceAllL ['\r'] ['\n']
        (replaceAllL "\r\n".data "##CRLF##".data
          (replaceAllL ['\x00'] [] s))))

/-- The no-output message of the windows path of `HandleExecute`. -/
def winNoOutputMsg : List Char :=
  ("Command executed successfully on Windows (no output). Note that some " ++
   "Windows commands may not produce output when run through cmd.exe or " ++
   "PowerShell.").data

/-- The response-text computation of `HandleExecute` after a successful
`client.Execute` call: stdout wins over stderr, empty output gets an
explanatory message, and only the windows path normalizes the output. -/
def handleExecuteResponse (isWindows : Bool)
    (respErr stdoutB stderrB : List Char) : List Char :=
  if respErr ≠ [] then "Failed to execute command: ".data ++ respErr
  else
    let output := if stdoutB.length = 0 then stderrB else stdoutB
    if output.length = 0 then
      if isWindows then winNoOutputMsg
      else "Command executed successfully (no output)".data
    else if isWindows then
      "Output from Windows command:\n".data ++ normalizeWindowsOutput output
    else
      "Output:\n".data ++ output

/-- Substring predicate used to state that an error message carries the
original text and context. -/
def containsSub (s pat : List Char) : Prop :=
  ∃ l r, s = l ++ pat ++ r

/-- First string element of a JSON list, with the values before it
non-strings (the first endpoint the scheme loops emit). -/
def firstString : List JVal → Option (List Char)
  | [] => none
  | JVal.str s :: _ => some s
  | _ :: rest => firstString rest

/-- Whether a JSON value is a string (the `.(string)` assertion succeeds). -/
def isStrV : JVal → Bool
  | JVal.str _ => true
  | _ => false

/-- `setFormat cm f` is `cm` with only the `format` key changed. -/
def setFormat (cm : ConfigMap) (f : Option JVal) : ConfigMap :=
  ⟨cm.osUpper, cm.osLower, cm.arch, f, cm.c2, cm.mtlsc2, cm.httpc2,
   cm.httpsc2, cm.isBeacon, cm.beaconInterval, cm.beaconJitter, cm.debug,
   cm.evasion, cm.obfuscateSymbols⟩

theorem lowerChar_idem (c : Char) : lowerChar (lowerChar c) = lowerChar c := by
  have hlow : ∀ p ∈ upperLower, upperLower.find? (fun q => q.1 = p.2) = none := by
    decide
  cases h : upperLower.find? (fun p => p.1 = c) with
  | none =>
    have h1 : lowerChar c = c := by unfold lowerChar; rw [h]
    rw [h1]
    exact h1
  | some p =>
    have h1 : lowerChar c = p.2 := by unfold lowerChar; rw [h]
    have hmem : p ∈ upperLower := List.mem_of_find?_eq_some h
    have h2 : lowerChar p.2 = p.2 := by unfold lowerChar; rw [hlow p hmem]
    rw [h1, h2]

theorem lowerStr_idem (x : List Char) : lowerStr (lowerStr x) = lowerStr x := by
  induction x with
  | nil => rfl
  | cons c cs ih =>
    show lowerChar (lowerChar c) :: lowerStr (lowerStr cs) =
      lowerChar c :: lowerStr cs
    rw [lowerChar_idem, ih]

theorem stdOS_cases (l : List Char) :
    stdOS l = "darwin".data ∨ stdOS l = "windows".data ∨
      stdOS l = "linux".data ∨ stdOS l = l := by
  unfold stdOS
  split_ifs with h1 h2 h3
  · exact Or.inl rfl
  · exact Or.inr (Or.inl rfl)
  · exact Or.inr (Or.inr (Or.inl rfl))
  · exact Or.inr (Or.inr (Or.inr rfl))

theorem stdArch_cases (l : List Char) :
    stdArch l = "amd64".data ∨ stdArch l = "386".data ∨
      stdArch l = "arm64".data ∨ stdArch l = l := by
  unfold stdArch
  split_ifs with h1 h2 h3
  · exact Or.inl rfl
  · exact Or.inr (Or.inl rfl)
  · exact Or.inr (Or.inr (Or.inl rfl))
  · exact Or.inr (Or.inr (Or.inr rfl))

theorem canonOS_idem (x : List Char) : canonOS (canonOS x) = canonOS x := by
  unfold canonOS
  rcases stdOS_cases (lowerStr x) with h | h | h | h <;> rw [h]
  · decide
  · decide
  · decide
  · rw [lowerStr_idem]
    exact h

theorem canonArch_idem (x : List Char) : canonArch (canonArch x) = canonArch x := by
  unfold canonArch
  rcases stdArch_cases (lowerStr x) with h | h | h | h <;> rw [h]
  · decide
  · decide
  · decide
  · rw [lowerStr_idem]
    exact h

theorem mem_replaceGo (pat rep : List Char) :
    ∀ (s : List Char) (k : Nat) (a : Char),
      a ∈ replaceGo pat rep k s → a ∈ rep ∨ a ∈ s := by
  intro s
  induction s with
  | nil =>
    intro k a h
    cases k <;> simp [replaceGo] at h
  | cons c cs ih =>
    intro k a h
    cases k with
    | succ k0 =>
      rw [replaceGo] at h
      rcases ih k0 a h with h1 | h1
      · exact Or.inl h1
      · exact Or.inr (List.mem_cons_of_mem c h1)
    | zero =>
      rw [replaceGo] at h
      by_cases hp : hasPrefixL pat (c :: cs) = true
      · rw [if_pos hp] at h
        rcases List.mem_append.mp h with h1 | h1
        · exact Or.inl h1
        · rcases ih (pat.length - 1) a h1 with h2 | h2
          · exact Or.inl h2
          · exact Or.inr (List.mem_cons_of_mem c h2)
      · rw [if_neg hp] at h
        rcases List.mem_cons.mp h with h1 | h1
        · exact Or.inr (List.mem_cons.mpr (Or.inl h1))
        · rcases ih 0 a h1 with h2 | h2
          · exact Or.inl h2
          · exact Or.inr (List.mem_cons_of_mem c h2)

theorem mem_replaceAllL (pat rep s : List Char) (a : Char)
    (h : a ∈ replaceAllL pat rep s) : a ∈ rep ∨ a ∈ s :=
  mem_replaceGo pat rep s 0 a h

theorem not_mem_replaceAllL_single (c : Char) (rep : List Char) (hc : c ∉ rep) :
    ∀ s : List Char, c ∉ replaceAllL [c] rep s := by
  intro s
  induction s with
  | nil => simp [replaceAllL, replaceGo]
  | cons d cs ih =>
    unfold replaceAllL at *
    rw [replaceGo]
    by_cases hd : hasPrefixL [c] (d :: cs) = true
    · rw [if_pos hd]
      intro hmem
      rcases List.mem_append.mp hmem with h1 | h1
      · exact hc h1
      · exact ih h1
    · rw [if_neg hd]
      intro hmem
      rcases List.mem_cons.mp hmem with h1 | h1
      · apply hd
        rw [h1]
        simp [hasPrefixL]
      · exact ih h1

theorem mem_trimSpaceL (s : List Char) (a : Char) (h : a ∈ trimSpaceL s) :
    a ∈ s := by
  unfold trimSpaceL at h
  have h1 := List.mem_reverse.mp h
  have h2 := (List.dropWhile_sublist (l := (s.dropWhile isSpaceChar).reverse)
    (p := isSpaceChar)).mem h1
  have h3 := List.mem_reverse.mp h2
  exact (List.dropWhile_sublist (l := s) (p := isSpaceChar)).mem h3

theorem hasPrefixL_self_append (p r : List Char) :
    hasPrefixL p (p ++ r) = true := by
  induction p with
  | nil => rfl
  | cons c cs ih => simp [hasPrefixL, ih]

theorem mem_of_hasPrefixL (p : List Char) :
    ∀ s : List Char, hasPrefixL p s = true → ∀ c ∈ p, c ∈ s := by
  induction p with
  | nil =>
    intro s _ c hc
    simp at hc
  | cons d ds ih =>
    intro s hp c hc
    cases s with
    | nil => simp [hasPrefixL] at hp
    | cons e es =>
      rw [hasPrefixL] at hp
      simp only [Bool.and_eq_true, decide_eq_true_eq] at hp
      rcases List.mem_cons.mp hc with h1 | h1
      · rw [h1, hp.1]
        exact List.mem_cons_self e es
      · exact List.mem_cons_of_mem e (ih es hp.2 c h1)

theorem hasPrefixL_eq_false_of_not_mem (p s : List Char) (c : Char)
    (hcp : c ∈ p) (hcs : c ∉ s) : hasPrefixL p s = false := by
  by_contra h
  have h1 : hasPrefixL p s = true := by
    cases h2 : hasPrefixL p s
    · exact absurd h2 h
    · rfl
  exact hcs (mem_of_hasPrefixL p s h1 c hcp)

theorem nul_not_mem_normalizeWindowsOutput (s : List Char) :
    '\x00' ∉ normalizeWindowsOutput s := by
  intro h
  have h4 := mem_trimSpaceL _ _ h
  rcases mem_replaceAllL _ _ _ _ h4 with h3 | h3
  · simp at h3
  rcases mem_replaceAllL _ _ _ _ h3 with h2 | h2
  · simp at h2
  rcases mem_replaceAllL _ _ _ _ h2 with h1 | h1
  · revert h1
    decide
  · exact not_mem_replaceAllL_single '\x00' [] (by simp) s h1

theorem cr_not_mem_normalizeWindowsOutput (s : List Char) :
    '\r' ∉ normalizeWindowsOutput s := by
  intro h
  have h4 := mem_trimSpaceL _ _ h
  rcases mem_replaceAllL _ _ _ _ h4 with h3 | h3
  · simp at h3
  · exact not_mem_replaceAllL_single '\r' ['\n'] (by simp) _ h3

theorem schemeLoop_nil_of_noStr (pre : List Char) :
    ∀ (l : List JVal) (k : Nat), (∀ v ∈ l, isStrV v = false) →
      schemeLoop pre k l = [] := by
  intro l
  induction l with
  | nil => intro k _; rfl
  | cons v vs ih =>
    intro k hv
    cases v with
    | str s =>
      have := hv (JVal.str s) (List.mem_cons_self _ _)
      simp [isStrV] at this
    | boolean b =>
      exact ih (k + 1) (fun w hw => hv w (List.mem_cons_of_mem _ hw))
    | num n =>
      exact ih (k + 1) (fun w hw => hv w (List.mem_cons_of_mem _ hw))
    | list xs =>
      exact ih (k + 1) (fun w hw => hv w (List.mem_cons_of_mem _ hw))
    | obj u =>
      exact ih (k + 1) (fun w hw => hv w (List.mem_cons_of_mem _ hw))

theorem schemeLoop_get (pre : List Char) :
    ∀ (l : List JVal) (k i : Nat) (s : List Char),
      l.get? i = some (JVal.str s) →
      (⟨k + i, if hasPrefixL pre s then s else pre ++ s⟩ : ImplantC2) ∈
        schemeLoop pre k l := by
  intro l
  induction l with
  | nil =>
    intro k i s h
    simp at h
  | cons v vs ih =>
    intro k i s h
    cases i with
    | zero =>
      have hv : v = JVal.str s := by
        simpa using h
      subst hv
      rw [schemeLoop]
      exact List.mem_cons_self _ _
    | succ j =>
      have h2 : vs.get? j = some (JVal.str s) := by
        simpa using h
      have h3 := ih (k + 1) j s h2
      have harith : k + (j + 1) = (k + 1) + j := by omega
      rw [harith]
      cases v with
      | str t =>
        rw [schemeLoop]
        exact List.mem_cons_of_mem _ h3
      | boolean b => exact h3
      | num n => exact h3
      | list xs => exact h3
      | obj u => exact h3

theorem schemeLoop_head (pre s0 : List Char) (hp : hasPrefixL pre s0 = false) :
    ∀ (l : List JVal) (k : Nat), firstString l = some s0 →
      ∃ i rest, schemeLoop pre k l = ⟨i, pre ++ s0⟩ :: rest := by
  intro l
  induction l with
  | nil =>
    intro k h
    simp [firstString] at h
  | cons v vs ih =>
    intro k h
    cases v with
    | str s =>
      rw [firstString] at h
      have hs : s = s0 := by injection h
      subst hs
      refine ⟨k, schemeLoop pre (k + 1) vs, ?_⟩
      rw [schemeLoop, hp]
      simp
    | boolean b => exact ih (k + 1) h
    | num n => exact ih (k + 1) h
    | list xs => exact ih (k + 1) h
    | obj u => exact ih (k + 1) h

theorem countSlash_append (a b : List Char) :
    countSlash (a ++ b) = countSlash a + countSlash b := by
  unfold countSlash
  exact List.count_append '/' a b

theorem resolveShape2_httpEmpty (m hs c2v : Option JVal) :
    resolveShape2 m (some (JVal.list [])) hs c2v =
      resolveShape2 m none hs c2v := by
  unfold resolveShape2
  cases hm : asList m with
  | some lm => rfl
  | none => rfl

theorem resolveShape_httpEmpty (c2v m hs : Option JVal) :
    resolveShape c2v m (some (JVal.list [])) hs =
      resolveShape c2v m none hs := by
  unfold resolveShape
  cases hc : asList c2v with
  | some l =>
    dsimp only
    by_cases h : 0 < l.length
    · rw [if_pos h, if_pos h]
    · rw [if_neg h, if_neg h]
      exact resolveShape2_httpEmpty m hs c2v
  | none => exact resolveShape2_httpEmpty m hs c2v

theorem resolveC2_firstShape (c2v : Option JVal) (l : List JVal)
    (hl : asList c2v = some l) (hlen : 0 < l.length)
    (m1 m2 h1v h2v hs1 hs2 : Option JVal) :
    resolveC2 c2v m1 h1v hs1 = resolveC2 c2v m2 h2v hs2 := by
  have hshape : ∀ m hv hsv : Option JVal,
      resolveShape c2v m hv hsv = Except.ok (true, c2ListLoop 0 l) := by
    intro m hv hsv
    unfold resolveShape
    rw [hl]
    exact if_pos hlen
  unfold resolveC2
  rw [hshape m1 h1v hs1, hshape m2 h2v hs2]

theorem resolveC2_mtlsShape (l : List JVal) (hv hsv : Option JVal) :
    resolveC2 none (some (JVal.list l)) hv hsv =
      (if (schemeLoop "mtls://".data 0 l).length = 0 ∧ 0 < l.length then
        Except.error (invalidMtlsc2Msg l)
      else if (schemeLoop "mtls://".data 0 l).length = 0 then
        Except.error noC2Msg
      else
        match validateC2Loop 0 (schemeLoop "mtls://".data 0 l) with
        | Except.error e => Except.error e
        | Except.ok _ => Except.ok (schemeLoop "mtls://".data 0 l)) := by
  have hshape : resolveShape none (some (JVal.list l)) hv hsv =
      (if (schemeLoop "mtls://".data 0 l).length = 0 ∧ 0 < l.length then
        Except.error (invalidMtlsc2Msg l)
      else Except.ok (true, schemeLoop "mtls://".data 0 l)) := rfl
  unfold resolveC2
  rw [hshape]
  by_cases h1 : (schemeLoop "mtls://".data 0 l).length = 0 ∧ 0 < l.length
  · rw [if_pos h1, if_pos h1]
  · rw [if_neg h1, if_neg h1]
    dsimp only
    by_cases h2 : (schemeLoop "mtls://".data 0 l).length = 0
    · rw [if_pos (Or.inr h2), if_pos h2]
    · have hneg : ¬ (¬ (true = true) ∨
          (schemeLoop "mtls://".data 0 l).length = 0) := by
        intro hcon
        rcases hcon with hf | hf
        · exact hf rfl
        · exact h2 hf
      rw [if_neg hneg, if_neg h2]

theorem resolveC2_httpShape (l : List JVal) (hsv : Option JVal)
    (hlen : 0 < l.length) :
    resolveC2 none none (some (JVal.list l)) hsv =
      (if (schemeLoop "http://".data 0 l).length = 0 then Except.error noC2Msg
      else
        match validateC2Loop 0 (schemeLoop "http://".data 0 l) with
        | Except.error e => Except.error e
        | Except.ok _ => Except.ok (schemeLoop "http://".data 0 l)) := by
  have hshape : resolveShape none none (some (JVal.list l)) hsv =
      Except.ok (true, schemeLoop "http://".data 0 l) := by
    show resolveShape3 (some (JVal.list l)) hsv none =
      Except.ok (true, schemeLoop "http://".data 0 l)
    unfold resolveShape3
    dsimp only [asList]
    exact if_pos hlen
  unfold resolveC2
  rw [hshape]
  dsimp only
  by_cases h2 : (schemeLoop "http://".data 0 l).length = 0
  · rw [if_pos (Or.inr h2), if_pos h2]
  · have hneg : ¬ (¬ (true = true) ∨
        (schemeLoop "http://".data 0 l).length = 0) := by
      intro hcon
      rcases hcon with hf | hf
      · exact hf rfl
      · exact h2 hf
    rw [if_neg hneg, if_neg h2]

theorem resolveC2_httpsShape (l : List JVal) (hlen : 0 < l.length) :
    resolveC2 none none none (some (JVal.list l)) =
      (if (schemeLoop "https://".data 0 l).length = 0 then Except.error noC2Msg
      else
        match validateC2Loop 0 (schemeLoop "https://".data 0 l) with
        | Except.error e => Except.error e
        | Except.ok _ => Except.ok (schemeLoop "https://".data 0 l)) := by
  have hshape : resolveShape none none none (some (JVal.list l)) =
      Except.ok (true, schemeLoop "https://".data 0 l) := by
    show resolveShape4 (some (JVal.list l)) none =
      Except.ok (true, schemeLoop "https://".data 0 l)
    unfold resolveShape4
    dsimp only [asList]
    exact if_pos hlen
  unfold resolveC2
  rw [hshape]
  dsimp only
  by_cases h2 : (schemeLoop "https://".data 0 l).length = 0
  · rw [if_pos (Or.inr h2), if_pos h2]
  · have hneg : ¬ (¬ (true = true) ∨
        (schemeLoop "https://".data 0 l).length = 0) := by
      intro hcon
      rcases hcon with hf | hf
      · exact hf rfl
      · exact h2 hf
    rw [if_neg hneg, if_neg h2]

theorem composeGenerate_fst (cm : ConfigMap) :
    Except.map Prod.fst (composeGenerate cm) =
      (if genPlatform cm ∈ supportedPlatforms then
        match resolveC2 cm.c2 cm.mtlsc2 cm.httpc2 cm.httpsc2 with
        | Except.error e => Except.error e
        | Except.ok c2s =>
          Except.ok (mkImplantConfig cm (genGoos cm) (genGoarch cm) c2s)
      else Except.error (unsupportedPlatformMsg (genPlatform cm))) := by
  unfold composeGenerate
  by_cases hp : genPlatform cm ∈ supportedPlatforms
  · rw [if_pos hp, if_pos hp]
    cases hres : resolveC2 cm.c2 cm.mtlsc2 cm.httpc2 cm.httpsc2 with
    | error e => rfl
    | ok c2s => rfl
  · rw [if_neg hp, if_neg hp]
    rfl

theorem validateC2Loop_bareHost (pre s0 : List Char) (i0 : Nat)
    (rest : List ImplantC2) (hne : hasPrefixL "mtls://".data (pre ++ s0) = false)
    (hpre : hasPrefixL "http://".data (pre ++ s0) = true ∨
      hasPrefixL "https://".data (pre ++ s0) = true)
    (hcount : countSlash (pre ++ s0) < 3) :
    validateC2Loop 0 (⟨i0, pre ++ s0⟩ :: rest) =
      Except.error (invalidHttpUrlMsg 0 (pre ++ s0)) := by
  rw [validateC2Loop]
  have hnil : ¬ (pre ++ s0 = ([] : List Char)) := by
    intro hcon
    rcases hpre with hp | hp <;> rw [hcon] at hp <;> simp [hasPrefixL] at hp
  rw [if_neg hnil, hne]
  have hor : (hasPrefixL "http://".data (pre ++ s0) ||
      hasPrefixL "https://".data (pre ++ s0)) = true := by
    rcases hpre with hp | hp <;> simp [hp]
  simp only [Bool.false_eq_true, if_false, hor, if_true, if_pos hcount]

/-- C9: OS and architecture alias canonicalization is idempotent and total:
canonicalizing twice equals canonicalizing once for every input, every
recognized alias maps to exactly one canonical value, and every unknown
input passes through lower-cased but otherwise unchanged. -/
theorem claim_C9_canonicalization :
    (∀ x : List Char, canonOS (canonOS x) = canonOS x) ∧
    (∀ x : List Char, canonArch (canonArch x) = canonArch x) ∧
    (canonOS "mac".data = "darwin".data ∧ canonOS "macos".data = "darwin".data ∧
      canonOS "osx".data = "darwin".data ∧ canonOS "win".data = "windows".data ∧
      canonOS "lin".data = "linux".data) ∧
    (canonArch "x64".data = "amd64".data ∧
      canonArch "x86_64".data = "amd64".data ∧
      canonArch "amd64".data = "amd64".data ∧
      canonArch "64".data = "amd64".data ∧
      canonArch "64bit".data = "amd64".data ∧
      canonArch "x86".data = "386".data ∧
      canonArch "i386".data = "386".data ∧
      canonArch "386".data = "386".data ∧
      canonArch "32".data = "386".data ∧
      canonArch "32bit".data = "386".data ∧
      canonArch "arm64".data = "arm64".data ∧
      canonArch "aarch64".data = "arm64".data) ∧
    (∀ x : List Char, lowerStr x ∉ osAliases → canonOS x = lowerStr x) ∧
    (∀ x : List Char, lowerStr x ∉ archAliases → canonArch x = lowerStr x) := by
  refine ⟨canonOS_idem, canonArch_idem, by decide, by decide, ?_, ?_⟩
  · intro x hx
    simp only [osAliases, List.mem_cons, List.not_mem_nil, or_false] at hx
    push_neg at hx
    obtain ⟨h1, h2, h3, h4, h5⟩ := hx
    have hA : ¬ (lowerStr x = "mac".data ∨ lowerStr x = "macos".data ∨
        lowerStr x = "osx".data) := by
      intro hcon
      rcases hcon with h | h | h
      · exact h1 h
      · exact h2 h
      · exact h3 h
    unfold canonOS stdOS
    rw [if_neg hA, if_neg h4, if_neg h5]
  · intro x hx
    simp only [archAliases, List.mem_cons, List.not_mem_nil, or_false] at hx
    push_neg at hx
    obtain ⟨h1, h2, h3, h4, h5, h6, h7, h8, h9, h10, h11, h12⟩ := hx
    have hA : ¬ (lowerStr x = "x64".data ∨ lowerStr x = "x86_64".data ∨
        lowerStr x = "amd64".data ∨ lowerStr x = "64".data ∨
        lowerStr x = "64bit".data) := by
      intro hcon
      rcases hcon with h | h | h | h | h
      · exact h1 h
      · exact h2 h
      · exact h3 h
      · exact h4 h
      · exact h5 h
    have hB : ¬ (lowerStr x = "x86".data ∨ lowerStr x = "i386".data ∨
        lowerStr x = "386".data ∨ lowerStr x = "32".data ∨
        lowerStr x = "32bit".data) := by
      intro hcon
      rcases hcon with h | h | h | h | h
      · exact h6 h
      · exact h7 h
      · exact h8 h
      · exact h9 h
      · exact h10 h
    have hC : ¬ (lowerStr x = "arm64".data ∨ lowerStr x = "aarch64".data) := by
      intro hcon
      rcases hcon with h | h
      · exact h11 h
      · exact h12 h
    unfold canonArch stdArch
    rw [if_neg hA, if_neg hB, if_neg hC]

/-- C9 witness: the idempotence and unknown-pass-through facts at concrete
inputs. -/
theorem claim_C9_canonicalization_witness :
    canonOS (canonOS "MacOS".data) = canonOS "MacOS".data ∧
    canonArch (canonArch "AARCH64".data) = canonArch "AARCH64".data ∧
    canonOS "plan9".data = lowerStr "plan9".data ∧
    canonArch "riscv".data = lowerStr "riscv".data := by
  have h := claim_C9_canonicalization
  exact ⟨h.1 _, h.2.1 _, h.2.2.2.2.1 "plan9".data (by decide),
    h.2.2.2.2.2 "riscv".data (by decide)⟩

/-- C2: on the windows path, a successful execution with non-empty output
returns the three-step-normalized text (NUL stripped, CRLF marked, bare CR
to LF, marker restored, trimmed); in particular
`"line1\r\n\x00line2\r"` normalizes to `"line1\nline2"`. -/
theorem claim_C2_windows_output_normalization (stdoutB stderrB : List Char)
    (hout : ¬ (if stdoutB.length = 0 then stderrB else stdoutB).length = 0) :
    handleExecuteResponse true [] stdoutB stderrB =
      "Output from Windows command:\n".data ++
        normalizeWindowsOutput
          (if stdoutB.length = 0 then stderrB else stdoutB) ∧
    normalizeWindowsOutput "line1\r\n\x00line2\r".data = "line1\nline2".data := by
  constructor
  · unfold handleExecuteResponse
    rw [if_neg (show ¬ (([] : List Char) ≠ []) from fun h => h rfl)]
    dsimp only
    rw [if_neg hout]
    rfl
  · decide

/-- C2 witness: the concrete normalization instance through the handler. -/
theorem claim_C2_windows_output_normalization_witness :
    handleExecuteResponse true [] "line1\r\n\x00line2\r".data [] =
      "Output from Windows command:\n".data ++
        normalizeWindowsOutput
          (if ("line1\r\n\x00line2\r".data).length = 0 then []
           else "line1\r\n\x00line2\r".data) ∧
    normalizeWindowsOutput "line1\r\n\x00line2\r".data = "line1\nline2".data :=
  claim_C2_windows_output_normalization "line1\r\n\x00line2\r".data []
    (by decide)

/-- C7 counterexample: on a posix session the output is returned verbatim,
so a stdout containing a bare CR and a NUL byte reaches the response text
unchanged, contradicting the claim that every returned output is free of
NUL bytes and bare carriage returns. -/
theorem claim_C7_posix_counterexample :
    '\r' ∈ handleExecuteResponse false [] "a\r\x00b".data [] ∧
    '\x00' ∈ handleExecuteResponse false [] "a\r\x00b".data [] := by
  decide

/-- C7 amended: the no-NUL/no-bare-CR output invariant holds only for
windows-classified sessions; there the successful-response text never
contains a NUL byte or a carriage return, whichever of stdout/stderr
supplied the output. -/
theorem claim_C7_windows_output_invariant (stdoutB stderrB : List Char) :
    '\x00' ∉ handleExecuteResponse true [] stdoutB stderrB ∧
    '\r' ∉ handleExecuteResponse true [] stdoutB stderrB := by
  unfold handleExecuteResponse
  rw [if_neg (show ¬ (([] : List Char) ≠ []) from fun h => h rfl)]
  dsimp only
  by_cases hout : (if stdoutB.length = 0 then stderrB else stdoutB).length = 0
  · rw [if_pos hout]
    constructor <;> decide
  · rw [if_neg hout]
    constructor
    · intro hmem
      have hmem2 : '\x00' ∈ "Output from Windows command:\n".data ++
          normalizeWindowsOutput
            (if stdoutB.length = 0 then stderrB else stdoutB) := hmem
      rcases List.mem_append.mp hmem2 with h | h
      · revert h
        decide
      · exact nul_not_mem_normalizeWindowsOutput _ h
    · intro hmem
      have hmem2 : '\r' ∈ "Output from Windows command:\n".data ++
          normalizeWindowsOutput
            (if stdoutB.length = 0 then stderrB else stdoutB) := hmem
      rcases List.mem_append.mp hmem2 with h | h
      · revert h
        decide
      · exact cr_not_mem_normalizeWindowsOutput _ h

/-- C3: build-failure classification: error text containing `gcc` takes the
cross-compiler branch regardless of surrounding text; text matching none of
the markers resolves to the generic category whose message still embeds the
original text and the platform/format context; the classifier always yields
one of its categories (it never raises), and the two-layer pipeline agrees
on concrete unmatched and gcc inputs. -/
theorem claim_C3_error_classification (e p f : List Char) :
    (containsL e "gcc".data = true →
      generateClassify e p f =
        (ErrorCategory.missingCrossCompiler,
          "failed to generate implant: cross-compiler error - ".data ++ e)) ∧
    (containsL e "CC".data = false → containsL e "gcc".data = false →
      containsL e "mingw".data = false → containsL e "go build".data = false →
      containsL e "exit status".data = false →
      containsL e "connect".data = false → containsL e "network".data = false →
      containsL e "connection".data = false →
      (generateClassify e p f).1 = ErrorCategory.generic ∧
        containsSub (generateClassify e p f).2 e ∧
        containsSub (generateClassify e p f).2 p ∧
        containsSub (generateClassify e p f).2 f) ∧
    ((generateClassify e p f).1 = ErrorCategory.missingCrossCompiler ∨
      (generateClassify e p f).1 = ErrorCategory.buildProcessFailure ∨
      (generateClassify e p f).1 = ErrorCategory.networkFailure ∨
      (generateClassify e p f).1 = ErrorCategory.generic) ∧
    (fullClassify "boom".data "linux/amd64".data "EXECUTABLE".data).1 =
      ErrorCategory.generic ∧
    containsSub (fullClassify "boom".data "linux/amd64".data
      "EXECUTABLE".data).2 "boom".data ∧
    (fullClassify "exit status 1: gcc failed".data "p".data "f".data).1 =
      ErrorCategory.missingCrossCompiler := by
  refine ⟨?_, ?_, ?_, by decide, ?_, by decide⟩
  · intro hgcc
    have hA : (containsL e "CC".data || containsL e "gcc".data ||
        containsL e "mingw".data) = true := by
      rw [hgcc]
      simp
    unfold generateClassify
    rw [if_pos hA]
  · intro hCC hgcc hmingw hgb hes hconn hnet hconn2
    have hA : ¬ ((containsL e "CC".data || containsL e "gcc".data ||
        containsL e "mingw".data) = true) := by
      rw [hCC, hgcc, hmingw]
      simp
    have hB : ¬ ((containsL e "go build".data ||
        containsL e "exit status".data) = true) := by
      rw [hgb, hes]
      simp
    have hC : ¬ ((containsL e "connect".data || containsL e "network".data ||
        containsL e "connection".data) = true) := by
      rw [hconn, hnet, hconn2]
      simp
    have hgen : generateClassify e p f =
        (ErrorCategory.generic,
          "failed to generate implant: ".data ++ e ++ " (platform: ".data ++
            p ++ ", format: ".data ++ f ++ ")".data) := by
      unfold generateClassify
      rw [if_neg hA, if_neg hB, if_neg hC]
    rw [hgen]
    refine ⟨rfl, ?_, ?_, ?_⟩
    · refine ⟨"failed to generate implant: ".data,
        " (platform: ".data ++ p ++ ", format: ".data ++ f ++ ")".data, ?_⟩
      simp [List.append_assoc]
    · refine ⟨"failed to generate implant: ".data ++ e ++ " (platform: ".data,
        ", format: ".data ++ f ++ ")".data, ?_⟩
      simp [List.append_assoc]
    · refine ⟨"failed to generate implant: ".data ++ e ++ " (platform: ".data
        ++ p ++ ", format: ".data, ")".data, ?_⟩
      simp [List.append_assoc]
  · unfold generateClassify
    by_cases hA : (containsL e "CC".data || containsL e "gcc".data ||
        containsL e "mingw".data) = true
    · rw [if_pos hA]
      exact Or.inl rfl
    · rw [if_neg hA]
      by_cases hB : (containsL e "go build".data ||
          containsL e "exit status".data) = true
      · rw [if_pos hB]
        exact Or.inr (Or.inl rfl)
      · rw [if_neg hB]
        by_cases hC : (containsL e "connect".data ||
            containsL e "network".data || containsL e "connection".data) = true
        · rw [if_pos hC]
          exact Or.inr (Or.inr (Or.inl rfl))
        · rw [if_neg hC]
          exact Or.inr (Or.inr (Or.inr rfl))
  · refine ⟨("failed to generate implant: failed to generate implant: ").data,
      (" (platform: linux/amd64, format: EXECUTABLE) - check server logs " ++
       "for more details").data, ?_⟩
    decide

/-- C3 witness: the gcc branch and the no-marker generic branch at concrete
inputs. -/
theorem claim_C3_error_classification_witness :
    generateClassify "a gcc error".data "linux/amd64".data "EXECUTABLE".data =
      (ErrorCategory.missingCrossCompiler,
        "failed to generate implant: cross-compiler error - ".data ++
          "a gcc error".data) ∧
    (generateClassify "boom".data "linux/amd64".data "EXECUTABLE".data).1 =
      ErrorCategory.generic := by
  refine ⟨(claim_C3_error_classification "a gcc error".data "linux/amd64".data
    "EXECUTABLE".data).1 (by decide), ?_⟩
  exact ((claim_C3_error_classification "boom".data "linux/amd64".data
    "EXECUTABLE".data).2.1 (by decide) (by decide) (by decide) (by decide)
    (by decide) (by decide) (by decide) (by decide)).1

/-- C1: on a posix session (session OS not case-insensitively `windows`), a
primary `/bin/bash -c` failure is followed by exactly one `/bin/sh -c`
fallback and nothing else; when the fallback also fails the call returns the
combined classified error value instead of crashing. -/
theorem claim_C1_posix_fallback (rpc : ExecuteReq → Except (List Char) ExecResp)
    (sessionsResult : Except (List Char) (List Session))
    (sessionID command : List Char) (s : Session) (e1 : List Char)
    (hs : getSession sessionsResult sessionID = Except.ok s)
    (hposix : ¬ lowerStr s.os = "windows".data)
    (hfail : rpc (bashReq sessionID command) = Except.error e1) :
    (clientExecute rpc sessionsResult sessionID command).2 =
      [bashReq sessionID command, shReq sessionID command] ∧
    ∀ e2, rpc (shReq sessionID command) = Except.error e2 →
      (clientExecute rpc sessionsResult sessionID command).1 =
        Except.error
          ("failed to execute command with both bash and sh: ".data ++ e2) := by
  have hred : clientExecute rpc sessionsResult sessionID command =
      (match rpc (shReq sessionID command) with
       | Except.ok r =>
         (Except.ok r, [bashReq sessionID command, shReq sessionID command])
       | Except.error e2 =>
         (Except.error
           ("failed to execute command with both bash and sh: ".data ++ e2),
          [bashReq sessionID command, shReq sessionID command])) := by
    unfold clientExecute
    rw [hs]
    dsimp only
    rw [if_neg hposix, hfail]
  rw [hred]
  constructor
  · cases h2 : rpc (shReq sessionID command) with
    | ok r => rfl
    | error e2x => rfl
  · intro e2 he
    rw [he]

/-- C1 witness: a posix session whose bash and sh attempts both fail through
a concrete always-failing RPC oracle. -/
theorem claim_C1_posix_fallback_witness :
    (clientExecute (fun _ => Except.error "boom".data)
        (Except.ok [⟨"s1".data, "Linux".data⟩]) "s1".data "ls -la".data).2 =
      [bashReq "s1".data "ls -la".data, shReq "s1".data "ls -la".data] ∧
    (clientExecute (fun _ => Except.error "boom".data)
        (Except.ok [⟨"s1".data, "Linux".data⟩]) "s1".data "ls -la".data).1 =
      Except.error
        ("failed to execute command with both bash and sh: ".data ++
          "boom".data) := by
  have h := claim_C1_posix_fallback (fun _ => Except.error "boom".data)
    (Except.ok [⟨"s1".data, "Linux".data⟩]) "s1".data "ls -la".data
    ⟨"s1".data, "Linux".data⟩ "boom".data (by rfl) (by decide) (by rfl)
  exact ⟨h.1, h.2 "boom".data (by rfl)⟩

theorem containsSub_append_left (a b pat : List Char)
    (h : containsSub b pat) : containsSub (a ++ b) pat := by
  obtain ⟨l, r, hb⟩ := h
  refine ⟨a ++ l, r, ?_⟩
  rw [hb]
  simp [List.append_assoc]

/-- C4: C2 endpoint shapes are probed in the fixed order and the first match
wins: whenever the structured `c2` list is present and non-empty, the result
does not depend on the `mtlsc2` / `httpc2` / `httpsc2` keys at all; and a
present-but-empty `httpc2` list behaves exactly as an absent one, falling
through to the next shape. -/
theorem claim_C4_shape_precedence :
    (∀ (c2v : Option JVal) (l : List JVal)
       (m1 m2 h1v h2v hs1 hs2 : Option JVal),
       asList c2v = some l → 0 < l.length →
       resolveC2 c2v m1 h1v hs1 = resolveC2 c2v m2 h2v hs2) ∧
    (∀ c2v m hs : Option JVal,
       resolveC2 c2v m (some (JVal.list [])) hs =
         resolveC2 c2v m none hs) := by
  constructor
  · intro c2v l m1 m2 h1v h2v hs1 hs2 hl hlen
    exact resolveC2_firstShape c2v l hl hlen m1 m2 h1v h2v hs1 hs2
  · intro c2v m hs
    unfold resolveC2
    rw [resolveShape_httpEmpty]

/-- C4 witness: a structured `c2` list beats a simultaneous `mtlsc2` list,
and an empty `httpc2` list matches the behavior of an absent one. -/
theorem claim_C4_shape_precedence_witness :
    resolveC2 (some (JVal.list [JVal.obj (some (JVal.str "mtls://a".data))]))
        (some (JVal.list [JVal.str "10.0.0.9".data])) none none =
      resolveC2 (some (JVal.list [JVal.obj (some (JVal.str "mtls://a".data))]))
        none none none ∧
    resolveC2 none none (some (JVal.list []))
        (some (JVal.list [JVal.str "h".data])) =
      resolveC2 none none none (some (JVal.list [JVal.str "h".data])) := by
  have h := claim_C4_shape_precedence
  exact ⟨h.1 (some (JVal.list [JVal.obj (some (JVal.str "mtls://a".data))]))
      [JVal.obj (some (JVal.str "mtls://a".data))]
      (some (JVal.list [JVal.str "10.0.0.9".data])) none none none none none
      (by rfl) (by decide),
    h.2 none none (some (JVal.list [JVal.str "h".data]))⟩

/-- C5: the composed configuration's format is always `EXECUTABLE`; whether
the composition succeeds, and the composed configuration itself, do not
depend on the requested format (only the recorded warnings do); every
disabled requested format (shared-lib family, shellcode, service) records a
warning; and the save-profile flow forces the same format. -/
theorem claim_C5_format_always_executable :
    (∀ (cm : ConfigMap) (ic : ImplantConfig) (w : List Warning),
       composeGenerate cm = Except.ok (ic, w) →
       ic.format = OutputFormat.EXECUTABLE) ∧
    (∀ (cm : ConfigMap) (f g : Option JVal),
       Except.map Prod.fst (composeGenerate (setFormat cm f)) =
         Except.map Prod.fst (composeGenerate (setFormat cm g))) ∧
    (∀ (cm : ConfigMap) (s : List Char) (ic : ImplantConfig)
       (w : List Warning),
       asStr cm.format = some s →
       (lowerStr s ∈ sharedLibNames ∨ lowerStr s = "shellcode".data ∨
         lowerStr s = "service".data) →
       composeGenerate cm = Except.ok (ic, w) → w ≠ []) ∧
    (∀ (name : Option (List Char)) (cm : ConfigMap) (ic : ImplantConfig)
       (w : List Warning),
       composeSaveProfile name cm = Except.ok (ic, w) →
       ic.format = OutputFormat.EXECUTABLE) := by
  refine ⟨?_, ?_, ?_, ?_⟩
  · intro cm ic w h
    unfold composeGenerate at h
    by_cases hp : genPlatform cm ∈ supportedPlatforms
    · rw [if_pos hp] at h
      cases hres : resolveC2 cm.c2 cm.mtlsc2 cm.httpc2 cm.httpsc2 with
      | error e =>
        rw [hres] at h
        cases h
      | ok c2s =>
        rw [hres] at h
        injection h with hpair
        injection hpair with h1 h2
        rw [← h1]
        rfl
    · rw [if_neg hp] at h
      cases h
  · intro cm f g
    rw [composeGenerate_fst, composeGenerate_fst]
    rfl
  · intro cm s ic w hfmt hdis h
    unfold composeGenerate at h
    by_cases hp : genPlatform cm ∈ supportedPlatforms
    · rw [if_pos hp] at h
      cases hres : resolveC2 cm.c2 cm.mtlsc2 cm.httpc2 cm.httpsc2 with
      | error e =>
        rw [hres] at h
        cases h
      | ok c2s =>
        rw [hres] at h
        injection h with hpair
        injection hpair with h1 h2
        rw [← h2]
        rw [hfmt]
        unfold formatWarnings
        dsimp only
        rcases hdis with hd | hd | hd
        · rw [if_pos hd]
          simp
        · have hn1 : ¬ lowerStr s ∈ sharedLibNames := by
            rw [hd]
            decide
          rw [if_neg hn1, if_pos hd]
          simp
        · have hn1 : ¬ lowerStr s ∈ sharedLibNames := by
            rw [hd]
            decide
          have hn2 : ¬ lowerStr s = "shellcode".data := by
            rw [hd]
            decide
          rw [if_neg hn1, if_neg hn2, if_pos hd]
          simp
    · rw [if_neg hp] at h
      cases h
  · intro name cm ic w h
    unfold composeSaveProfile at h
    cases name with
    | none => cases h
    | some n =>
      dsimp only at h
      by_cases hn : n = []
      · rw [if_pos hn] at h
        cases h
      · rw [if_neg hn] at h
        injection h with hpair
        injection hpair with h1 h2
        rw [← h1]
        rfl

/-- C5 witness: a shellcode request still composes, with format forced to
executable and a warning recorded. -/
theorem claim_C5_format_always_executable_witness :
    (∀ ic w,
      composeGenerate
          ⟨none, none, none, some (JVal.str "shellcode".data),
           some (JVal.str "mtls://h".data), none, none, none, none, none,
           none, none, none, none⟩ =
        Except.ok (ic, w) → ic.format = OutputFormat.EXECUTABLE ∧ w ≠ []) ∧
    Except.map Prod.fst (composeGenerate (setFormat
        ⟨none, none, none, none, some (JVal.str "mtls://h".data), none, none,
         none, none, none, none, none, none, none⟩
        (some (JVal.str "shellcode".data)))) =
      Except.map Prod.fst (composeGenerate (setFormat
        ⟨none, none, none, none, some (JVal.str "mtls://h".data), none, none,
         none, none, none, none, none, none, none⟩ none)) := by
  have h := claim_C5_format_always_executable
  constructor
  · intro ic w hok
    exact ⟨h.1 _ ic w hok,
      h.2.2.1 _ "shellcode".data ic w (by rfl) (by decide) hok⟩
  · exact h.2.1 _ (some (JVal.str "shellcode".data)) none

/-- C6 counterexample: the save-profile flow performs no platform
validation — a request canonicalizing to the unsupported pair `darwin/386`
succeeds and hands the configuration downstream, so the claim that both
flows reject unsupported pairs is false. -/
theorem claim_C6_saveprofile_no_validation :
    composeSaveProfile (some "p".data)
        ⟨none, some (JVal.str "mac".data), some (JVal.str "386".data),
         none, none, none, none, none, none, none, none, none, none, none⟩ =
      Except.ok (⟨"darwin".data, "386".data, OutputFormat.EXECUTABLE, [],
        false, 0, 0, false, false, false⟩, []) ∧
    "darwin/386".data ∉ supportedPlatforms := by
  constructor
  · rfl
  · decide

/-- C6 amended: only the generate flow validates the canonicalized platform:
there, every unsupported pair fails before composition with an error naming
the pair and enumerating the six supported pairs, while the save-profile
flow accepts any named input without platform validation. -/
theorem claim_C6_generate_platform_validation (cm : ConfigMap)
    (hp : genPlatform cm ∉ supportedPlatforms) :
    composeGenerate cm =
      Except.error (unsupportedPlatformMsg (genPlatform cm)) ∧
    containsSub (unsupportedPlatformMsg (genPlatform cm)) (genPlatform cm) ∧
    (∀ q ∈ supportedPlatforms,
      containsSub (unsupportedPlatformMsg (genPlatform cm)) q) ∧
    (∀ (n : List Char) (scm : ConfigMap), ¬ n = [] →
      Except.isOk (composeSaveProfile (some n) scm) = true) := by
  refine ⟨?_, ?_, ?_, ?_⟩
  · unfold composeGenerate
    rw [if_neg hp]
  · refine ⟨"unsupported platform: ".data,
      (" - supported platforms are: windows/amd64, windows/386, " ++
       "linux/amd64, linux/386, darwin/amd64, darwin/arm64").data, ?_⟩
    unfold unsupportedPlatformMsg
    simp [List.append_assoc]
  · intro q hq
    have hbase : ∀ q2 ∈ supportedPlatforms,
        containsSub ((" - supported platforms are: windows/amd64, " ++
          "windows/386, linux/amd64, linux/386, darwin/amd64, " ++
          "darwin/arm64").data) q2 := by
      intro q2 hq2
      simp only [supportedPlatforms, List.mem_cons, List.not_mem_nil,
        or_false] at hq2
      rcases hq2 with h | h | h | h | h | h <;> subst h
      · exact ⟨" - supported platforms are: ".data,
          (", windows/386, linux/amd64, linux/386, darwin/amd64, " ++
           "darwin/arm64").data, by decide⟩
      · exact ⟨" - supported platforms are: windows/amd64, ".data,
          ", linux/amd64, linux/386, darwin/amd64, darwin/arm64".data,
          by decide⟩
      · exact ⟨" - supported platforms are: windows/amd64, windows/386, ".data,
          ", linux/386, darwin/amd64, darwin/arm64".data, by decide⟩
      · exact ⟨(" - supported platforms are: windows/amd64, windows/386, " ++
          "linux/amd64, ").data, ", darwin/amd64, darwin/arm64".data,
          by decide⟩
      · exact ⟨(" - supported platforms are: windows/amd64, windows/386, " ++
          "linux/amd64, linux/386, ").data, ", darwin/arm64".data, by decide⟩
      · exact ⟨(" - supported platforms are: windows/amd64, windows/386, " ++
          "linux/amd64, linux/386, darwin/amd64, ").data, [], by decide⟩
    exact containsSub_append_left _ _ q (hbase q hq)
  · intro n scm hn
    unfold composeSaveProfile
    dsimp only
    rw [if_neg hn]
    rfl

/-- C6 witness: the generate flow rejects the canonicalized pair
`darwin/386`, and the save-profile flow accepts a named request. -/
theorem claim_C6_generate_platform_validation_witness :
    composeGenerate
        ⟨none, some (JVal.str "mac".data), some (JVal.str "386".data), none,
         none, none, none, none, none, none, none, none, none, none⟩ =
      Except.error (unsupportedPlatformMsg "darwin/386".data) ∧
    Except.isOk (composeSaveProfile (some "p".data)
        ⟨none, some (JVal.str "mac".data), some (JVal.str "386".data), none,
         none, none, none, none, none, none, none, none, none, none⟩) =
      true := by
  have h := claim_C6_generate_platform_validation
    ⟨none, some (JVal.str "mac".data), some (JVal.str "386".data), none,
     none, none, none, none, none, none, none, none, none, none⟩
    (by decide)
  exact ⟨h.1, h.2.2.2 "p".data _ (by decide)⟩

/-- C8: every string element of an `mtlsc2` list lacking the `mtls://`
prefix resolves to the endpoint `mtls://<element>` with its 0-based index as
priority; `mtlsc2: ["10.0.0.1"]` yields exactly the endpoint
`mtls://10.0.0.1` at priority 0; and a non-empty `mtlsc2` list with zero
valid (string) entries fails the request. -/
theorem claim_C8_mtls_resolution :
    (∀ (l : List JVal) (i : Nat) (s : List Char),
       l.get? i = some (JVal.str s) → hasPrefixL "mtls://".data s = false →
       (⟨i, "mtls://".data ++ s⟩ : ImplantC2) ∈
         schemeLoop "mtls://".data 0 l) ∧
    resolveC2 none (some (JVal.list [JVal.str "10.0.0.1".data])) none none =
      Except.ok [⟨0, "mtls://10.0.0.1".data⟩] ∧
    (∀ (l : List JVal) (hv hsv : Option JVal), l ≠ [] →
       (∀ v ∈ l, isStrV v = false) →
       resolveC2 none (some (JVal.list l)) hv hsv =
         Except.error (invalidMtlsc2Msg l)) := by
  refine ⟨?_, by rfl, ?_⟩
  · intro l i s hget hpre2
    have h := schemeLoop_get "mtls://".data l 0 i s hget
    rw [Nat.zero_add, hpre2] at h
    simpa using h
  · intro l hv hsv hne hnostr
    have hnil : schemeLoop "mtls://".data 0 l = [] :=
      schemeLoop_nil_of_noStr "mtls://".data l 0 hnostr
    rw [resolveC2_mtlsShape]
    rw [if_pos ⟨by rw [hnil]; rfl, List.length_pos.mpr hne⟩]

/-- C8 witness: the bare-host endpoint and the all-invalid failure at
concrete inputs. -/
theorem claim_C8_mtls_resolution_witness :
    (⟨0, "mtls://10.0.0.1".data⟩ : ImplantC2) ∈
      schemeLoop "mtls://".data 0 [JVal.str "10.0.0.1".data] ∧
    resolveC2 none (some (JVal.list [JVal.boolean true])) none none =
      Except.error (invalidMtlsc2Msg [JVal.boolean true]) := by
  have h := claim_C8_mtls_resolution
  refine ⟨?_, ?_⟩
  · have h2 := h.1 [JVal.str "10.0.0.1".data] 0 "10.0.0.1".data (by rfl)
      (by decide)
    exact h2
  · exact h.2.2 [JVal.boolean true] none none (by simp) (by decide)

/-- C10: when endpoints come from the `httpc2` or `httpsc2` shape and the
(first) string entry contains no slash, the prefixed URL carries exactly two
slashes — below the required three — so URL validation always fails the
request with the invalid-HTTP(S)-URL error for the first endpoint instead of
producing a build configuration. -/
theorem claim_C10_bare_http_hosts (l : List JVal) (s0 : List Char)
    (hsv : Option JVal) (hfs : firstString l = some s0)
    (hslash : countSlash s0 = 0) :
    resolveC2 none none (some (JVal.list l)) hsv =
      Except.error (invalidHttpUrlMsg 0 ("http://".data ++ s0)) ∧
    countSlash ("http://".data ++ s0) = 2 ∧
    resolveC2 none none none (some (JVal.list l)) =
      Except.error (invalidHttpUrlMsg 0 ("https://".data ++ s0)) ∧
    countSlash ("https://".data ++ s0) = 2 := by
  have hnotmem : '/' ∉ s0 := by
    unfold countSlash at hslash
    exact List.count_eq_zero.mp hslash
  have hlen : 0 < l.length := by
    cases l with
    | nil => cases hfs
    | cons v vs => simp
  have hchttp : countSlash ("http://".data ++ s0) = 2 := by
    rw [countSlash_append, hslash]
    decide
  have hchttps : countSlash ("https://".data ++ s0) = 2 := by
    rw [countSlash_append, hslash]
    decide
  have hphttp : hasPrefixL "http://".data s0 = false :=
    hasPrefixL_eq_false_of_not_mem _ _ '/' (by decide) hnotmem
  have hphttps : hasPrefixL "https://".data s0 = false :=
    hasPrefixL_eq_false_of_not_mem _ _ '/' (by decide) hnotmem
  obtain ⟨i1, rest1, hloop1⟩ :=
    schemeLoop_head "http://".data s0 hphttp l 0 hfs
  obtain ⟨i2, rest2, hloop2⟩ :=
    schemeLoop_head "https://".data s0 hphttps l 0 hfs
  have hval1 : validateC2Loop 0 (⟨i1, "http://".data ++ s0⟩ :: rest1) =
      Except.error (invalidHttpUrlMsg 0 ("http://".data ++ s0)) :=
    validateC2Loop_bareHost "http://".data s0 i1 rest1 rfl
      (Or.inl (hasPrefixL_self_append _ _)) (by rw [hchttp]; decide)
  have hval2 : validateC2Loop 0 (⟨i2, "https://".data ++ s0⟩ :: rest2) =
      Except.error (invalidHttpUrlMsg 0 ("https://".data ++ s0)) :=
    validateC2Loop_bareHost "https://".data s0 i2 rest2 rfl
      (Or.inr (hasPrefixL_self_append _ _)) (by rw [hchttps]; decide)
  refine ⟨?_, hchttp, ?_, hchttps⟩
  · rw [resolveC2_httpShape l hsv hlen, hloop1]
    rw [if_neg (by simp)]
    rw [hval1]
  · rw [resolveC2_httpsShape l hlen, hloop2]
    rw [if_neg (by simp)]
    rw [hval2]

/-- C10 witness: a single bare `httpc2` host fails validation concretely. -/
theorem claim_C10_bare_http_hosts_witness :
    resolveC2 none none (some (JVal.list [JVal.str "10.0.0.1".data])) none =
      Except.error (invalidHttpUrlMsg 0 ("http://".data ++ "10.0.0.1".data)) ∧
    countSlash ("http://".data ++ "10.0.0.1".data) = 2 := by
  have h := claim_C10_bare_http_hosts [JVal.str "10.0.0.1".data]
    "10.0.0.1".data none (by rfl) (by decide)
  exact ⟨h.1, h.2.1⟩

end SliverMCP
